import Mathlib

/-!
Shallow embedding of the `wess` web-server bootstrap library (Go).

The embedding follows the source files:
  * `server.go`   : `ServerOptions`, `NewServer`, `Start`, `waitForStart`,
                    `waitForShutdown`, `IsReady`
  * `route_health.go`   : `healthRoutes`, `healthHandler`
  * `route_frontend.go` : `protectedFileSystem.Open`, `AddFrontend`
  * `websocket.go`      : `upgrader.CheckOrigin`

Concurrency-sensitive parts (`waitForStart`, `waitForShutdown`) are embedded
as event traces: each goroutine's shared-state actions (atomic stores to the
readiness flag, listener bind outcomes, shutdown calls, channel sends) are
listed in the program order the Go code performs them.  Purely local actions
(logging, deriving a timeout context) produce no event.
-/

namespace Wess

/-- The two listeners a server can own ("probeserver" and "webserver"). -/
inductive Listener where
  | probe
  | web
deriving DecidableEq, Fintype

/-- Errors crossing the orchestrator boundary.  `server.go` wraps every
listener error with `errors.RuntimeError.Wrap`, so the only kind that
reaches a caller is a runtime-wrapped error tagged by its listener. -/
inductive WError where
  | runtimeWrapped (l : Listener)
deriving DecidableEq, Fintype

/-! ### `NewServer` (server.go, construction and probe wiring) -/

/-- The fields of `ServerOptions` that the construction logic inspects
(`server.go`).  Go zero values are the defaults of the structure. -/
structure ServerOptions where
  Address : String := ""
  Port : Int := 0
  ProbePort : Int := 0
  HealthRootPath : String := ""
  ShutdownTimeout : Int := 0
deriving DecidableEq

/-- One nanosecond-denominated second, as in Go `time.Second`. -/
def timeSecond : Int := 1000000000

/-- Where the probe router lives after construction: absent, a subrouter of
the application router (probe port equals application port), or the router
of a dedicated probe server. -/
inductive ProbeRouterState where
  | absent
  | onAppRouter (healthRoot : String)
  | separateRouter (healthRoot : String)
deriving DecidableEq

/-- The construction-relevant state of a `Server` (`server.go`).
`probeserver` carries the address/port pair of the dedicated probe
`http.Server` when one is built; `webAddress`/`webPort` are the pieces of
the application server's `Addr`. -/
structure Server where
  ShutdownTimeout : Int
  webAddress : String
  webPort : Int
  proberouter : ProbeRouterState
  probeserver : Option (String × Int)
deriving DecidableEq

/-- `NewServer` (`server.go`): defaulting and probe wiring.  Mirrors the
source: `Port == 0 → 80`, `Address == "" → "0.0.0.0"`,
`ShutdownTimeout == 0 → 15s`; a probe router exists only when
`ProbePort > 0`, in which case `HealthRootPath` defaults to `"/healthz"`,
and a dedicated probe server is built only when `ProbePort` differs from
the (defaulted) application port.  Logger, CORS and `http.Server` tuning
fields do not influence this wiring and are omitted. -/
def NewServer (options : ServerOptions) : Server :=
  let port : Int := if options.Port = 0 then 80 else options.Port
  let address : String := if options.Address = "" then "0.0.0.0" else options.Address
  let shutdownTimeout : Int :=
    if options.ShutdownTimeout = 0 then 15 * timeSecond else options.ShutdownTimeout
  let probeWiring : ProbeRouterState × Option (String × Int) :=
    if 0 < options.ProbePort then
      let healthRoot : String :=
        if options.HealthRootPath = "" then "/healthz" else options.HealthRootPath
      if options.ProbePort = port then
        (ProbeRouterState.onAppRouter healthRoot, none)
      else
        (ProbeRouterState.separateRouter healthRoot, some (address, options.ProbePort))
    else
      (ProbeRouterState.absent, none)
  { ShutdownTimeout := shutdownTimeout
    webAddress := address
    webPort := port
    proberouter := probeWiring.1
    probeserver := probeWiring.2 }

/-- `Start` (`server.go`) attaches the health routes when and only when
`server.proberouter != nil`. -/
def healthRoutesAttachedAtStart (server : Server) : Bool :=
  match server.proberouter with
  | ProbeRouterState.absent => false
  | _ => true

/-! ### Health routes (route_health.go) -/

/-- The routes `healthRoutes` registers on the probe router
(`route_health.go`): method, path, and the probe name passed to
`healthHandler`. -/
def healthRoutes : List (String × String × String) :=
  [("GET", "/liveness", "liveness"), ("GET", "/readiness", "readiness")]

/-- `healthHandler` (`route_health.go`): the HTTP status written for a
request, as a function of the server's readiness flag and the probe name.
The probe name only selects the log child and never influences the
response. -/
def healthHandler (ready : Bool) (probename : String) : Nat :=
  if !ready then 503 else 200

/-! ### `waitForStart` / `Start` as event traces (server.go)

`waitForStart` spawns a goroutine that, in program order,
  1. stores 1 into the readiness flag (`atomic.StoreInt32(&server.healthStatus, 1)`),
  2. calls `ListenAndServe`, which either binds and serves forever or
     returns a bind error,
  3. on a bind error, stores 0 back into the readiness flag and sends the
     error to the waiting `Start`.
The caller races that error against a 1-second timer.  The Boolean `ok`
below means "the bind succeeded (no error arrived within the grace
window)". -/

/-- Shared-state events of `Start` and its goroutines. -/
inductive Ev where
  | setReady (v : Bool)
  | bindSucceed (l : Listener)
  | bindFail (l : Listener)
deriving DecidableEq

/-- The readiness flag (`IsReady`) observed after a prefix of events; the
flag starts at 0 (NotReady), so `IsReady` is false before `Start`. -/
def statusAfter (events : List Ev) : Bool :=
  events.foldl (fun s e => match e with | Ev.setReady v => v | _ => s) false

/-- The event trace of the goroutine spawned by `waitForStart`
(`server.go`): readiness is stored as Ready first, then the bind is
attempted; a failing bind stores NotReady back before reporting. -/
def waitForStartEvents (l : Listener) (ok : Bool) : List Ev :=
  Ev.setReady true ::
    (if ok then [Ev.bindSucceed l] else [Ev.bindFail l, Ev.setReady false])

/-- The value `waitForStart` returns to `Start`: `none` when the timer wins
the race (bind assumed successful), the runtime-wrapped bind error
otherwise (`errors.RuntimeError.Wrap(err)`). -/
def waitForStartErr (l : Listener) (ok : Bool) : Option WError :=
  if ok then none else some (WError.runtimeWrapped l)

/-- What one call of `Start` produces: the events that occurred, the
returned error, and whether `waitForShutdown` was called (i.e. whether
non-nil shutdown/stop channels were returned). -/
structure StartResult where
  events : List Ev
  err : Option WError
  coordinatorStarted : Bool
deriving DecidableEq

/-- `Start` (`server.go`): when a probe server exists, wait for it to start
first and return its error with nil channels on failure; then do the same
for the web server; only when both started is `waitForShutdown` called.
`hasProbe` is `server.probeserver != nil`; `probeOk`/`webOk` say whether
each bind succeeds within the grace window. -/
def Start (hasProbe probeOk webOk : Bool) : StartResult :=
  if hasProbe then
    match waitForStartErr Listener.probe probeOk with
    | some e => ⟨waitForStartEvents Listener.probe probeOk, some e, false⟩
    | none =>
      match waitForStartErr Listener.web webOk with
      | some e =>
          ⟨waitForStartEvents Listener.probe probeOk ++
             waitForStartEvents Listener.web webOk, some e, false⟩
      | none =>
          ⟨waitForStartEvents Listener.probe probeOk ++
             waitForStartEvents Listener.web webOk, none, true⟩
  else
    match waitForStartErr Listener.web webOk with
    | some e => ⟨waitForStartEvents Listener.web webOk, some e, false⟩
    | none => ⟨waitForStartEvents Listener.web webOk, none, true⟩

/-! ### `waitForShutdown` as an event trace (server.go)

The coordinator goroutine blocks on the stop channel, reads one signal and
then, in program order: stores 0 into the readiness flag; if a probe server
exists, disables its keep-alives and calls `Shutdown` on it, force-closing
it on failure and continuing either way; disables the web server's
keep-alives and calls `Shutdown` on it, on failure force-closing it and
sending the runtime-wrapped error on the `shutdown` channel; finally sends
nil on the `shutdown` channel (this last send is unconditional in the
source).  `probeOk`/`webOk` say whether each `Shutdown` call returns
without error. -/

/-- Shared-state events of the shutdown coordinator. -/
inductive SdEv where
  | setReady (v : Bool)
  | disableKeepAlives (l : Listener)
  | shutdownCall (l : Listener)
  | forceClose (l : Listener)
  | deliver (v : Option WError)
deriving DecidableEq

/-- The event trace of the goroutine of `waitForShutdown` (`server.go`)
after the first value arrives on the stop channel. -/
def waitForShutdownEvents (hasProbe probeOk webOk : Bool) : List SdEv :=
  SdEv.setReady false ::
    ((if hasProbe then
        [SdEv.disableKeepAlives Listener.probe, SdEv.shutdownCall Listener.probe] ++
          (if probeOk then [] else [SdEv.forceClose Listener.probe])
      else []) ++
     ([SdEv.disableKeepAlives Listener.web, SdEv.shutdownCall Listener.web] ++
       (if webOk then []
        else [SdEv.forceClose Listener.web,
              SdEv.deliver (some (WError.runtimeWrapped Listener.web))])) ++
     [SdEv.deliver none])

/-- The values sent on the completion (`shutdown`) channel during a trace,
in order. -/
def completionsSent (events : List SdEv) : List (Option WError) :=
  events.filterMap fun e => match e with | SdEv.deliver v => some v | _ => none

/-! ### WebSocket origin check (websocket.go) -/

/-- Go `strings.Split(s, sep)` for a one-character separator, on the
character list of `s`: splitting the empty string yields `[""]`, and `n`
separators yield `n + 1` fields. -/
def splitChars (sep : Char) : List Char → List (List Char)
  | [] => [[]]
  | c :: cs =>
    match splitChars sep cs with
    | [] => if c = sep then [[], []] else [[c]]
    | r :: rs => if c = sep then [] :: r :: rs else (c :: r) :: rs

/-- Go `strings.Split(s, sep)` for a one-character separator. -/
def splitString (sep : Char) (s : String) : List String :=
  (splitChars sep s.data).map fun cs => String.mk cs

/-- Go `strings.TrimSpace`: drop leading and trailing whitespace.  (Go
trims all Unicode white space; the configuration values at stake are
ASCII, where `Char.isWhitespace` agrees.) -/
def trimSpace (s : String) : String :=
  String.mk (((s.data.dropWhile Char.isWhitespace).reverse.dropWhile
      Char.isWhitespace).reverse)

/-- The part of a parsed `net/url.URL` the origin check consults. -/
structure URL where
  host : String
deriving DecidableEq

/-- `upgrader.CheckOrigin` (`websocket.go`).  `parse` models
`net/url.Parse` (external); `allowedOriginsEnv` is the value of the
`WEBSOCKET_ALLOWED_ORIGINS` environment variable; `origin` is
`r.Header.Get("Origin")` (the empty string when the header is absent);
`requestHost` is `r.Host`. -/
def CheckOrigin (parse : String → Option URL) (allowedOriginsEnv : String)
    (origin requestHost : String) : Bool :=
  if origin.length = 0 then true
  else
    match parse origin with
    | none => false
    | some originURL =>
      let allowedOrigins := splitString ',' allowedOriginsEnv
      if allowedOrigins.length == 0 && originURL.host != requestHost then false
      else
        allowedOrigins.any fun allowedOrigin =>
          let a := trimSpace allowedOrigin
          a == "*" || a == origin

/-- The allow-list as configured: the comma-separated entries of the
environment value, whitespace-trimmed (the loop in `CheckOrigin` trims
each entry before comparing). -/
def allowList (allowedOriginsEnv : String) : List String :=
  (splitString ',' allowedOriginsEnv).map trimSpace

/-! ### Protected file system and `AddFrontend` (route_frontend.go) -/

/-- The error kinds an underlying file system can report; `notFound`
models `fs.ErrNotExist`. -/
inductive FsError where
  | notFound
  | permissionDenied
  | otherFailure
deriving DecidableEq

/-- A Go `(value, error)` pair, as returned by `http.FileSystem.Open`,
`File.Stat` and `File.Close`. -/
inductive FsResult (α : Type) where
  | ok (a : α)
  | err (e : FsError)
deriving DecidableEq

/-- The result of `File.Stat` that `protectedFileSystem.Open` consults. -/
structure FileStat where
  isDir : Bool
deriving DecidableEq

/-- A file handle: what its `Stat()` returns and whether `Close()` fails
(`some e`) or succeeds (`none`). -/
structure FsFile where
  statResult : FsResult FileStat
  closeResult : Option FsError
deriving DecidableEq

/-- An underlying `http.FileSystem`, abstracted as its `Open` method. -/
structure FileSystem where
  OpenFile : String → FsResult FsFile

/-- Go `path.Join(dir, name)` on the already-cleaned, rooted paths an
`http.FileServer` passes to `Open` (the general function also cleans the
result, which is the identity on such inputs). -/
def joinPath (dir name : String) : String :=
  if dir.data.getLast? = some '/' then dir ++ name else dir ++ "/" ++ name

/-- `protectedFileSystem.Open` (`route_frontend.go`): open the path, stat
it, and when it is a directory, allow the open only if the directory's
`index.html` opens; otherwise close the directory handle and return the
`index.html` open error (or the close error if closing fails). -/
def protectedOpen (pfs : FileSystem) (filepath : String) : FsResult FsFile :=
  match pfs.OpenFile filepath with
  | FsResult.err e => FsResult.err e
  | FsResult.ok file =>
    match file.statResult with
    | FsResult.err e => FsResult.err e
    | FsResult.ok stat =>
      if stat.isDir then
        match pfs.OpenFile (joinPath filepath "index.html") with
        | FsResult.err e =>
          match file.closeResult with
          | some cerr => FsResult.err cerr
          | none => FsResult.err e
        | FsResult.ok _ => FsResult.ok file
      else FsResult.ok file

/-- `io/fs.ValidPath` (Go standard library, used by `fs.Sub`): `"."`
names the root; otherwise every `/`-separated element must be non-empty
and neither `"."` nor `".."`.  (Lean strings are always valid Unicode, so
the UTF-8 validity check of the Go source is vacuous here.) -/
def ValidPath (name : String) : Bool :=
  name == "." ||
    (splitString '/' name).all fun elem => elem != "" && elem != "." && elem != ".."

/-- Outcome of `fs.Sub(rootFS, dir)` (Go standard library): an error
exactly when `dir` is not a valid `io/fs` path; `"."` returns the
filesystem itself, any other valid path the subtree rooted at `dir`. -/
inductive SubResult where
  | ok (dir : String)
  | invalidPathErr
deriving DecidableEq

/-- `fs.Sub` on the name argument (the only input that decides success). -/
def Sub (dir : String) : SubResult :=
  if ValidPath dir then SubResult.ok dir else SubResult.invalidPathErr

/-- Outcome of `AddFrontend` (`route_frontend.go`): either the error from
`fs.Sub` is returned with no route registered, or a route serving the
sub-filesystem `subDir` under `mountPath` is registered and nil is
returned. -/
inductive AddFrontendResult where
  | routeRegistered (mountPath : String) (subDir : String)
  | subErr
deriving DecidableEq

/-- `AddFrontend(path, rootFS, rootPath)` (`route_frontend.go`). -/
def AddFrontend (mountPath rootPath : String) : AddFrontendResult :=
  match Sub rootPath with
  | SubResult.invalidPathErr => AddFrontendResult.subErr
  | SubResult.ok d => AddFrontendResult.routeRegistered mountPath d

/-! ## Theorems -/

/-- C1 (counterexample): with no probe server and a web bind that will
succeed, after the first event of `Start` (the goroutine's store of Ready)
the readiness flag already reads Ready, although no bind — of either
listener — has succeeded yet.  So readiness does not flip to Ready "only
after both binds succeed": the goroutine of `waitForStart` stores Ready
before calling `ListenAndServe`. -/
theorem Start_ready_before_binds_cex :
    statusAfter ((Start false true true).events.take 1) = true ∧
    Ev.bindSucceed Listener.web ∉ (Start false true true).events.take 1 ∧
    Ev.bindSucceed Listener.probe ∉ (Start false true true).events.take 1 := by
  decide

/-- C1 (amended): `IsReady` is false before `Start` (the flag starts at
NotReady); each run of `Start` stores Ready as the very first event —
before any bind outcome — and a failing bind stores NotReady back, so
after `Start` returns the flag reads Ready exactly when `Start` returned
no error. -/
theorem Start_readiness_transitions :
    ∀ hasProbe probeOk webOk : Bool,
      statusAfter [] = false ∧
      (Start hasProbe probeOk webOk).events.head? = some (Ev.setReady true) ∧
      statusAfter (Start hasProbe probeOk webOk).events =
        (Start hasProbe probeOk webOk).err.isNone := by
  intro hasProbe probeOk webOk
  cases hasProbe <;> cases probeOk <;> cases webOk <;> decide

/-- C2 (the code at the failing input): when the application listener's
graceful `Shutdown` fails, the coordinator of `waitForShutdown` sends the
wrapped error on the completion channel and then also executes the
unconditional final `shutdown <- nil`, so two completion values are sent,
not exactly one. -/
theorem waitForShutdown_two_completions :
    completionsSent (waitForShutdownEvents false true false) =
      [some (WError.runtimeWrapped Listener.web), none] ∧
    (completionsSent (waitForShutdownEvents false true false)).length ≠ 1 := by
  decide

/-- C3: whenever `Start` returns an error (a bind failed within the grace
window, for the probe or the web listener), the error is the
runtime-wrapped bind error of the listener that failed, `waitForShutdown`
was never called (so the returned shutdown and stop channels are nil), and
the readiness flag reads NotReady after `Start` returns. -/
theorem Start_bind_failure_contract :
    ∀ (hasProbe probeOk webOk : Bool) (e : WError),
      (Start hasProbe probeOk webOk).err = some e →
      (e = WError.runtimeWrapped Listener.probe ∨
        e = WError.runtimeWrapped Listener.web) ∧
      (Start hasProbe probeOk webOk).coordinatorStarted = false ∧
      statusAfter (Start hasProbe probeOk webOk).events = false := by
  intro hasProbe probeOk webOk
  cases hasProbe <;> cases probeOk <;> cases webOk <;> decide

/-- Witness for `Start_bind_failure_contract`: a web bind failure with no
probe server. -/
theorem Start_bind_failure_contract_witness :
    (WError.runtimeWrapped Listener.web = WError.runtimeWrapped Listener.probe ∨
      WError.runtimeWrapped Listener.web = WError.runtimeWrapped Listener.web) ∧
    (Start false true false).coordinatorStarted = false ∧
    statusAfter (Start false true false).events = false :=
  Start_bind_failure_contract false true false
    (WError.runtimeWrapped Listener.web) (by decide)

/-- C4: the coordinator's first event after the first stop trigger is the
store of NotReady — before any keep-alive disabling, shutdown call or
close; when a probe server exists its `Shutdown` is called before the web
server's (it occurs, and at a strictly earlier position); and a failing
probe shutdown does not abort the sequence: the web `Shutdown` call and
the final completion send still occur. -/
theorem waitForShutdown_ordering :
    ∀ hasProbe probeOk webOk : Bool,
      (waitForShutdownEvents hasProbe probeOk webOk).head? =
        some (SdEv.setReady false) ∧
      (hasProbe = true →
        SdEv.shutdownCall Listener.probe ∈
          waitForShutdownEvents hasProbe probeOk webOk ∧
        (waitForShutdownEvents hasProbe probeOk webOk).indexOf
            (SdEv.shutdownCall Listener.probe) <
          (waitForShutdownEvents hasProbe probeOk webOk).indexOf
            (SdEv.shutdownCall Listener.web)) ∧
      (probeOk = false →
        SdEv.shutdownCall Listener.web ∈
          waitForShutdownEvents hasProbe probeOk webOk ∧
        SdEv.deliver none ∈ waitForShutdownEvents hasProbe probeOk webOk) := by
  intro hasProbe probeOk webOk
  cases hasProbe <;> cases probeOk <;> cases webOk <;> decide

/-- Witness for `waitForShutdown_ordering`: a probe server whose shutdown
fails while the web shutdown succeeds. -/
theorem waitForShutdown_ordering_witness :
    (waitForShutdownEvents true false true).head? = some (SdEv.setReady false) ∧
    (SdEv.shutdownCall Listener.probe ∈ waitForShutdownEvents true false true ∧
      (waitForShutdownEvents true false true).indexOf
          (SdEv.shutdownCall Listener.probe) <
        (waitForShutdownEvents true false true).indexOf
          (SdEv.shutdownCall Listener.web)) ∧
    (SdEv.shutdownCall Listener.web ∈ waitForShutdownEvents true false true ∧
      SdEv.deliver none ∈ waitForShutdownEvents true false true) :=
  ⟨(waitForShutdown_ordering true false true).1,
   (waitForShutdown_ordering true false true).2.1 rfl,
   (waitForShutdown_ordering true false true).2.2 rfl⟩

/-- C5: a dedicated probe server exists iff the probe port is positive and
differs from the (defaulted) application port; with equal positive ports
the probe router is a subrouter of the application router under the
health-root path and no second server is built; with probe port 0 neither
a probe router nor a probe server exists, and `Start` never attaches the
health routes. -/
theorem NewServer_probe_wiring :
    ∀ options : ServerOptions,
      ((NewServer options).probeserver.isSome = true ↔
        0 < options.ProbePort ∧
          options.ProbePort ≠ (NewServer options).webPort) ∧
      (0 < options.ProbePort → options.ProbePort = (NewServer options).webPort →
        (NewServer options).proberouter = ProbeRouterState.onAppRouter
          (if options.HealthRootPath = "" then "/healthz"
            else options.HealthRootPath) ∧
        (NewServer options).probeserver = none) ∧
      (options.ProbePort = 0 →
        (NewServer options).proberouter = ProbeRouterState.absent ∧
        (NewServer options).probeserver = none ∧
        healthRoutesAttachedAtStart (NewServer options) = false) := by
  intro options
  simp only [NewServer, healthRoutesAttachedAtStart]
  split_ifs <;> simp_all <;> omega

/-- Witness for `NewServer_probe_wiring`: co-located probe (probe port
equal to the defaulted application port 80) and disabled probe. -/
theorem NewServer_probe_wiring_witness :
    ((NewServer { ProbePort := 80 }).proberouter =
        ProbeRouterState.onAppRouter "/healthz" ∧
      (NewServer { ProbePort := 80 }).probeserver = none) ∧
    ((NewServer {}).proberouter = ProbeRouterState.absent ∧
      (NewServer {}).probeserver = none ∧
      healthRoutesAttachedAtStart (NewServer {}) = false) := by
  refine ⟨?_, (NewServer_probe_wiring {}).2.2 rfl⟩
  have h := (NewServer_probe_wiring { ProbePort := 80 }).2.1
    (by decide) (by decide)
  simpa using h

/-- C6: for both registered health routes (`GET {root}/liveness` and
`GET {root}/readiness`), `healthHandler` answers 200 when the readiness
flag is set and 503 when it is not, and the two probe names behave
identically. -/
theorem healthRoutes_status :
    ∀ ready : Bool,
      healthHandler ready "liveness" = healthHandler ready "readiness" ∧
      ∀ route ∈ healthRoutes,
        healthHandler ready route.2.2 = if ready = true then 200 else 503 := by
  intro ready
  refine ⟨rfl, ?_⟩
  intro route hroute
  fin_cases hroute <;> cases ready <;> rfl

/-- Witness for `healthRoutes_status`: the liveness route on a ready
server. -/
theorem healthRoutes_status_witness :
    healthHandler true ("GET", "/liveness", "liveness").2.2 =
      if true = true then 200 else 503 :=
  (healthRoutes_status true).2 ("GET", "/liveness", "liveness") (by decide)

/-- C7 (counterexample): `NewServer` performs no negative-port validation:
with `Port := -1` the constructed application server keeps port `-1` — a
negative port — so the claimed validation that no port is negative does
not happen (construction cannot fail and no normalization occurs). -/
theorem NewServer_negative_port_cex :
    (NewServer { Port := -1 }).webPort = -1 ∧
    (NewServer { Port := -1 }).webPort < 0 := by
  decide

/-- C7 (amended): `NewServer` applies the defaults — port 80 when the
configured port is 0, address "0.0.0.0" when empty, shutdown timeout 15
seconds when zero — and passes every non-zero port (negative ones
included) through unchanged; it never fails and always returns a server
(the construction is a total function that binds no socket). -/
theorem NewServer_defaults_no_validation :
    ∀ options : ServerOptions,
      (options.Port = 0 → (NewServer options).webPort = 80) ∧
      (options.Port ≠ 0 → (NewServer options).webPort = options.Port) ∧
      (options.Address = "" → (NewServer options).webAddress = "0.0.0.0") ∧
      (options.Address ≠ "" → (NewServer options).webAddress = options.Address) ∧
      (options.ShutdownTimeout = 0 →
        (NewServer options).ShutdownTimeout = 15 * timeSecond) ∧
      (options.ShutdownTimeout ≠ 0 →
        (NewServer options).ShutdownTimeout = options.ShutdownTimeout) := by
  intro options
  simp only [NewServer]
  split_ifs <;> simp_all

/-- Witness for `NewServer_defaults_no_validation`: the all-defaults
configuration, and the pass-through of a negative port. -/
theorem NewServer_defaults_no_validation_witness :
    (NewServer {}).webPort = 80 ∧
    (NewServer {}).webAddress = "0.0.0.0" ∧
    (NewServer {}).ShutdownTimeout = 15 * timeSecond ∧
    (NewServer { Port := -1 }).webPort = -1 :=
  ⟨(NewServer_defaults_no_validation {}).1 rfl,
   (NewServer_defaults_no_validation {}).2.2.1 rfl,
   (NewServer_defaults_no_validation {}).2.2.2.2.1 rfl,
   (NewServer_defaults_no_validation { Port := -1 }).2.1 (by decide)⟩

/-- A string has length 0 exactly when it is the empty string. -/
theorem string_length_eq_zero {s : String} : s.length = 0 ↔ s = "" := by
  constructor
  · intro h
    cases s with
    | mk data =>
      cases data with
      | nil => rfl
      | cons c cs => simp [String.length] at h
  · intro h
    subst h
    rfl

/-- C8: the origin-check decision procedure of the upgrader.  With no
`Origin` header the request is allowed; an unparsable origin is rejected;
with an empty configured allow-list an origin whose host differs from the
request host is rejected; an allow-list containing `*` or an entry equal
to the origin allows it; otherwise the request is rejected.  The
allow-list is the comma-separated, whitespace-trimmed entry list of the
configuration value. -/
theorem CheckOrigin_policy :
    ∀ (parse : String → Option URL) (env origin requestHost : String),
      (origin = "" → CheckOrigin parse env origin requestHost = true) ∧
      (origin ≠ "" → parse origin = none →
        CheckOrigin parse env origin requestHost = false) ∧
      (∀ u : URL, origin ≠ "" → parse origin = some u → env = "" →
        u.host ≠ requestHost →
        CheckOrigin parse env origin requestHost = false) ∧
      (origin ≠ "" → (∃ u, parse origin = some u) →
        ("*" ∈ allowList env ∨ origin ∈ allowList env) →
        CheckOrigin parse env origin requestHost = true) ∧
      (origin ≠ "" → (∃ u, parse origin = some u) →
        "*" ∉ allowList env → origin ∉ allowList env →
        CheckOrigin parse env origin requestHost = false) := by
  intro parse env origin requestHost
  refine ⟨?_, ?_, ?_, ?_, ?_⟩
  · intro h
    subst h
    rfl
  · intro h hp
    simp only [CheckOrigin, hp]
    rw [if_neg fun hlen => h (string_length_eq_zero.mp hlen)]
  · intro u h hp henv hhost
    subst henv
    simp only [CheckOrigin, hp]
    rw [if_neg fun hlen => h (string_length_eq_zero.mp hlen)]
    simp only [show splitString ',' "" = [""] from rfl, List.any_cons,
      List.any_nil, Bool.or_false, List.length_cons, List.length_nil]
    simp only [show trimSpace "" = "" from rfl]
    simp [beq_eq_false_iff_ne, Ne.symm h]
  · intro h hu hmem
    obtain ⟨u, hp⟩ := hu
    simp only [CheckOrigin, hp]
    rw [if_neg fun hlen => h (string_length_eq_zero.mp hlen)]
    obtain ⟨a, ha, htrim⟩ : ∃ a ∈ splitString ',' env,
        trimSpace a = "*" ∨ trimSpace a = origin := by
      rcases hmem with hm | hm <;>
        · obtain ⟨a, ha, htrim⟩ := List.mem_map.mp hm
          exact ⟨a, ha, by simp [htrim]⟩
    have hne : ((splitString ',' env).length == 0) = false := by
      have : splitString ',' env ≠ [] := List.ne_nil_of_mem ha
      simp [List.length_eq_zero, this]
    rw [if_neg (by simp [hne])]
    refine List.any_eq_true.mpr ⟨a, ha, ?_⟩
    rcases htrim with htrim | htrim <;> simp [htrim]
  · intro h hu hstar horigin
    obtain ⟨u, hp⟩ := hu
    simp only [CheckOrigin, hp]
    rw [if_neg fun hlen => h (string_length_eq_zero.mp hlen)]
    have hany : ((splitString ',' env).any fun allowedOrigin =>
        trimSpace allowedOrigin == "*" || trimSpace allowedOrigin == origin) =
          false := by
      rw [List.any_eq_false]
      intro a ha
      have h1 : trimSpace a ≠ "*" := fun he =>
        hstar (List.mem_map.mpr ⟨a, ha, he⟩)
      have h2 : trimSpace a ≠ origin := fun he =>
        horigin (List.mem_map.mpr ⟨a, ha, he⟩)
      simp [h1, h2]
    split
    · rfl
    · exact hany

/-- Witness for `CheckOrigin_policy`: an allow-list holding exactly the
origin (allowed), and an empty allow-list with a foreign host
(rejected). -/
theorem CheckOrigin_policy_witness :
    CheckOrigin (fun s => if s = "http://good.example" then
        some ⟨"good.example"⟩ else none)
      "http://good.example" "http://good.example" "somehost" = true ∧
    CheckOrigin (fun s => if s = "http://good.example" then
        some ⟨"good.example"⟩ else none)
      "" "http://good.example" "somehost" = false :=
  ⟨(CheckOrigin_policy (fun s => if s = "http://good.example" then
        some ⟨"good.example"⟩ else none)
      "http://good.example" "http://good.example" "somehost").2.2.2.1
      (by decide) ⟨⟨"good.example"⟩, by decide⟩
      (Or.inr (by decide)),
   (CheckOrigin_policy (fun s => if s = "http://good.example" then
        some ⟨"good.example"⟩ else none)
      "" "http://good.example" "somehost").2.2.1 ⟨"good.example"⟩
      (by decide) (by decide) rfl (by decide)⟩

/-- C9: for a path that opens and stats as a directory, the protected
open succeeds exactly when the directory's `index.html` opens in the
underlying file system; when the `index.html` lookup reports not-found
(and closing the directory handle succeeds, as it does for the embedded
file systems served here), the protected open returns the not-found
error, so the request yields 404 and never a directory listing. -/
theorem protectedOpen_directory_policy :
    ∀ (pfs : FileSystem) (p : String) (file : FsFile) (stat : FileStat),
      pfs.OpenFile p = FsResult.ok file →
      file.statResult = FsResult.ok stat →
      stat.isDir = true →
      ((∃ f, protectedOpen pfs p = FsResult.ok f) ↔
        ∃ ifile, pfs.OpenFile (joinPath p "index.html") = FsResult.ok ifile) ∧
      (file.closeResult = none →
        pfs.OpenFile (joinPath p "index.html") = FsResult.err FsError.notFound →
        protectedOpen pfs p = FsResult.err FsError.notFound) := by
  intro pfs p file stat hopen hstat hdir
  simp only [protectedOpen, hopen, hstat, hdir, if_true]
  constructor
  · cases hidx : pfs.OpenFile (joinPath p "index.html") with
    | ok ifile => simp
    | err e => cases hclose : file.closeResult <;> simp
  · intro hclose hidx
    simp [hidx, hclose]

/-- A mock underlying file system: `/docs` is a directory (close
succeeds), every other path — `index.html` included — is missing. -/
def sampleDirFS : FileSystem :=
  ⟨fun p =>
    if p = "/docs" then FsResult.ok ⟨FsResult.ok ⟨true⟩, none⟩
    else FsResult.err FsError.notFound⟩

/-- Witness for `protectedOpen_directory_policy`: opening the directory
`/docs`, which has no `index.html`, yields the not-found error. -/
theorem protectedOpen_directory_policy_witness :
    protectedOpen sampleDirFS "/docs" = FsResult.err FsError.notFound :=
  (protectedOpen_directory_policy sampleDirFS "/docs"
      ⟨FsResult.ok ⟨true⟩, none⟩ ⟨true⟩ (by decide) rfl rfl).2 rfl (by decide)

/-- C10 (counterexample): `"."` is the `io/fs` name of a filesystem's own
root, so `AddFrontend(path, rootFS, ".")` asks to mount the whole source
tree at its own root — yet `fs.Sub` accepts `"."`, the route is
registered and nil is returned instead of a configuration error. -/
theorem AddFrontend_own_root_cex :
    AddFrontend "/" "." = AddFrontendResult.routeRegistered "/" "." ∧
    AddFrontend "/" "." ≠ AddFrontendResult.subErr := by
  decide

/-- C10 (amended): `AddFrontend` returns the `fs.Sub` error synchronously,
with no route registered, exactly when the sub-path is not a valid `io/fs`
name — in particular for the sub-path `"/"` (the claim's example spelling
of the filesystem root); the equally root-denoting name `"."` is accepted.
Mounting at mount path `"/"` over a proper subdirectory succeeds and
returns nil. -/
theorem AddFrontend_validity :
    ∀ mountPath rootPath : String,
      (AddFrontend mountPath rootPath = AddFrontendResult.subErr ↔
        ValidPath rootPath = false) ∧
      AddFrontend mountPath "/" = AddFrontendResult.subErr ∧
      AddFrontend mountPath "testdata" =
        AddFrontendResult.routeRegistered mountPath "testdata" := by
  intro mountPath rootPath
  refine ⟨?_, ?_, ?_⟩
  · simp only [AddFrontend, Sub]
    cases h : ValidPath rootPath <;> simp [h]
  · simp [AddFrontend, Sub, show ValidPath "/" = false from by decide]
  · simp [AddFrontend, Sub, show ValidPath "testdata" = true from by decide]

/-- Witness for `AddFrontend_validity`: the invalid sub-path `"/"` is
rejected. -/
theorem AddFrontend_validity_witness :
    AddFrontend "/" "/" = AddFrontendResult.subErr :=
  (AddFrontend_validity "/" "/").1.mpr (by decide)

end Wess
